import Mathlib

/-!
Shallow embedding of `swayblur` (`src/swayblur/blurManager.py`) in Lean 4,
together with theorems settling the specification claims about it.

The embedding models:
* the on-disk state as an association list from path strings to file data
  (byte list plus modification time): newest binding first, so overwriting
  a path is modelled by consing a new binding;
* `filecmp.cmp` with its default `shallow=True` behaviour (Python stdlib):
  if both stat signatures `(size, mtime)` agree the files are reported equal
  without reading their contents, otherwise differing sizes report inequality
  and equal sizes fall through to a full byte comparison;
* `verifyWallpaperCache`, `genBlurredImage`, `BlurManager.__init__`,
  `BlurManager.start` and `BlurManager.handleBlur` from the source;
* `hashlib.md5(path.encode()).hexdigest()` as a full MD5 implementation over
  byte lists (naturals below 256), RFC 1321;
* the collaborators that are not part of the shown source (`paths`, `output`,
  the i3ipc event loop) are modelled from the spec, each marked in its doc
  comment.

Fallible Python code (uncaught `OSError` from `os.stat`/`shutil.copy`) is
modelled with `Option`; exceptions inside `handleBlur` with `Except`.
-/

namespace Swayblur

/-! ## File-system model -/

/-- A regular file: its byte content and its stat modification time.
All files in the model are regular files. -/
structure FileData where
  content : List Nat
  mtime : Nat
deriving DecidableEq

/-- File size in bytes, as reported by `os.stat`. -/
def FileData.size (f : FileData) : Nat := f.content.length

/-- The file system: paths bound to file data, newest binding first. -/
def FS : Type := List (String × FileData)

instance : DecidableEq FS := by unfold FS; infer_instance

/-- Look a path up in the file system. -/
def FS.lookup (fs : FS) (p : String) : Option FileData := List.lookup p fs

/-- The part of the `os.stat` result that `filecmp._sig` keeps for a regular
file: `(st_size, st_mtime)` (the file-type component is constant here since
every file in the model is regular). -/
def statSig (f : FileData) : Nat × Nat := (f.size, f.mtime)

/-- Embedding of Python `filecmp.cmp(f1, f2)` with the default `shallow=True`
(as called on line 26 of `blurManager.py`): if both stat signatures agree the
result is `True` without reading file contents; otherwise differing sizes give
`False`, and equal sizes fall through to a full byte-for-byte comparison.
`none` models the `OSError` raised by `os.stat` when a path is missing. -/
def filecmpCmp (fs : FS) (f1 f2 : String) : Option Bool :=
  match fs.lookup f1, fs.lookup f2 with
  | some a, some b =>
      if statSig a = statSig b then some true
      else if a.size ≠ b.size then some false
      else some (decide (a.content = b.content))
  | _, _ => none

/-! ## The `paths` collaborator (not under `src/`) -/

/-- Modelled from the spec: `paths.cachedImagePath` — "`resolveCachedPath
(sourcePath) -> cachedPath`: pure function of sourcePath's identity;
deterministic, no I/O required to compute the path string itself". -/
def cachedImagePath (_sourcePath : String) (identity : String) : String :=
  "cache/" ++ identity

/-- Modelled from the spec: `paths.framePath` — "`resolveFramePath(identity,
blurLevel) -> framePath`: deterministic path, stable across runs,
collision-free across different (identity, blurLevel) pairs". -/
def framePath (identity : String) (blurLevel : Nat) : String :=
  "cache/" ++ identity ++ "-" ++ toString blurLevel ++ ".png"

/-- Modelled from the spec: `paths.exists` — whether a file exists at the
given path. -/
def pathsExists (fs : FS) (p : String) : Bool := (fs.lookup p).isSome

/-! ## Observable actions

Side effects of the program are recorded as actions in a trace. The
constructor `verifyFrameExists` is the action the spec demands for trusting
cached frames; it is part of the vocabulary so that its absence from the
traces the code produces can be stated. -/

/-- An observable side effect of the program. -/
inductive Action where
  | logInfo (msg : String)
  | logError (msg : String)
  | printMsg (msg : String)
  | copyFile (src dst : String)
  | generateFrame (frameFile : String) (level : Nat)
  | verifyFrameExists (frameFile : String)
  | subscribe (event : String)
  | listen
deriving DecidableEq

/-- Is this action an event-stream subscription? -/
def Action.isSubscribe : Action → Bool
  | .subscribe _ => true
  | _ => false

/-- Is this action entering the blocking listen loop? -/
def Action.isListen : Action → Bool
  | .listen => true
  | _ => false

/-- Is this action a frame generation? -/
def Action.isGenerateFrame : Action → Bool
  | .generateFrame _ _ => true
  | _ => false

/-- Is this action a copy into the wallpaper cache? -/
def Action.isCopyFile : Action → Bool
  | .copyFile _ _ => true
  | _ => false

/-- Is this action a frame-existence verification? -/
def Action.isVerifyFrameExists : Action → Bool
  | .verifyFrameExists _ => true
  | _ => false

/-! ## `verifyWallpaperCache` (lines 23–32) -/

/-- Line 26's condition, with Python's short-circuit `and`:
`paths.exists(cachedWallpaper) and filecmp.cmp(wallpaperPath, cachedWallpaper)`
(so a missing cached file never reaches `filecmp.cmp`, while a missing
wallpaper raises — `none`). -/
def cacheHitCheck (fs : FS) (wallpaperPath cachedWallpaper : String) : Option Bool :=
  if pathsExists fs cachedWallpaper then filecmpCmp fs wallpaperPath cachedWallpaper
  else some false

/-- Embedding of `verifyWallpaperCache(wallpaperPath, wallpaperHash)`
(lines 23–32): a cache hit (file exists at the cached path and `filecmp.cmp`
reports it equal to the source) returns `true` with the file system unchanged;
otherwise the source is copied over the cached path (`shutil.copy` copies the
bytes and stamps a fresh mtime, here the `now` argument) and the result is
`false`. `none` models an uncaught `OSError` (source file missing). The
`logging.info` calls are recorded in the returned trace. -/
def verifyWallpaperCache (wallpaperPath wallpaperHash : String) (now : Nat)
    (fs : FS) : Option (Bool × FS × List Action) :=
  match cacheHitCheck fs wallpaperPath (cachedImagePath wallpaperPath wallpaperHash) with
  | none => none
  | some true =>
      some (true, fs,
        [.logInfo ("wallpaper " ++ wallpaperPath ++ " is cached as "
          ++ cachedImagePath wallpaperPath wallpaperHash)])
  | some false =>
      match fs.lookup wallpaperPath with
      | none => none
      | some src =>
          some (false, (cachedImagePath wallpaperPath wallpaperHash, ⟨src.content, now⟩) :: fs,
            [.logInfo ("wallpaper " ++ wallpaperPath ++ " added to the cache as "
               ++ cachedImagePath wallpaperPath wallpaperHash),
             .copyFile wallpaperPath (cachedImagePath wallpaperPath wallpaperHash)])

/-! ## `genBlurredImage` (lines 13–20) -/

/-- Outcome of the `subprocess.run` call on line 15: either the executable
was not found (`FileNotFoundError`), or the process completed with the given
return code. `subprocess.run` is called without `check=True`, so a nonzero
return code raises nothing. -/
inductive SubprocessOutcome where
  | fileNotFound
  | completed (returncode : Nat)
deriving DecidableEq

/-- Result of `genBlurredImage`: the command line that was attempted, whether
the function called `exit()`, and what it logged. -/
structure GenResult where
  command : List String
  exited : Bool
  logs : List Action
deriving DecidableEq

/-- Embedding of `genBlurredImage(inputPath, outputPath, blurLevel)`
(lines 13–20), parametrised by the outcome of the `subprocess.run` call:
`FileNotFoundError` is caught, an error is logged and `exit()` is called;
any completed run — whatever its return code — falls through to
`logging.info('Generated image ...')` and a normal return. -/
def genBlurredImage (inputPath outputPath : String) (blurLevel : Nat)
    (outcome : SubprocessOutcome) : GenResult :=
  let cmd := ["convert", inputPath, "-blur", "0x" ++ toString blurLevel, outputPath]
  match outcome with
  | .fileNotFound =>
      ⟨cmd, true,
        [.logError "Could not create blurred version of wallpaper, ensure imagemagick is installed"]⟩
  | .completed _ =>
      ⟨cmd, false, [.logInfo ("Generated image " ++ outputPath)]⟩

/-! ## The animation schedule (lines 40–42) -/

/-- Embedding of the list comprehension on lines 40–42:
`[(i + 1) * (blurStrength // animationDuration) for i in range(animationDuration)]`. -/
def animationFrames (blurStrength animationDuration : Nat) : List Nat :=
  (List.range animationDuration).map (fun i => (i + 1) * (blurStrength / animationDuration))

/-! ## MD5 (line 52: `hashlib.md5(outputCfg['image'].encode()).hexdigest()`)

A full implementation of RFC 1321 over byte lists, with 32-bit machine words
represented as naturals reduced modulo `2 ^ 32`. -/

namespace MD5

/-- `2 ^ 32`, the modulus for 32-bit machine arithmetic. -/
def M32 : Nat := 4294967296

/-- Bitwise complement of a 32-bit word `x < 2 ^ 32`. -/
def notW (x : Nat) : Nat := 4294967295 - x

/-- Left-rotate a 32-bit word by `c` places (`0 < c < 32`). -/
def rotl (x c : Nat) : Nat := x % 2 ^ (32 - c) * 2 ^ c + x / 2 ^ (32 - c)

/-- The per-round left-rotation amounts (RFC 1321). -/
def shiftTable : List Nat :=
  [7, 12, 17, 22, 7, 12, 17, 22, 7, 12, 17, 22, 7, 12, 17, 22,
   5, 9, 14, 20, 5, 9, 14, 20, 5, 9, 14, 20, 5, 9, 14, 20,
   4, 11, 16, 23, 4, 11, 16, 23, 4, 11, 16, 23, 4, 11, 16, 23,
   6, 10, 15, 21, 6, 10, 15, 21, 6, 10, 15, 21, 6, 10, 15, 21]

/-- The 64 sine-derived additive constants `floor(2^32 * |sin(i + 1)|)`
(RFC 1321). -/
def sineTable : List Nat :=
  [0xd76aa478, 0xe8c7b756, 0x242070db, 0xc1bdceee,
   0xf57c0faf, 0x4787c62a, 0xa8304613, 0xfd469501,
   0x698098d8, 0x8b44f7af, 0xffff5bb1, 0x895cd7be,
   0x6b901122, 0xfd987193, 0xa679438e, 0x49b40821,
   0xf61e2562, 0xc040b340, 0x265e5a51, 0xe9b6c7aa,
   0xd62f105d, 0x02441453, 0xd8a1e681, 0xe7d3fbc8,
   0x21e1cde6, 0xc33707d6, 0xf4d50d87, 0x455a14ed,
   0xa9e3e905, 0xfcefa3f8, 0x676f02d9, 0x8d2a4c8a,
   0xfffa3942, 0x8771f681, 0x6d9d6122, 0xfde5380c,
   0xa4beea44, 0x4bdecfa9, 0xf6bb4b60, 0xbebfbc70,
   0x289b7ec6, 0xeaa127fa, 0xd4ef3085, 0x04881d05,
   0xd9d4d039, 0xe6db99e5, 0x1fa27cf8, 0xc4ac5665,
   0xf4292244, 0x432aff97, 0xab9423a7, 0xfc93a039,
   0x655b59c3, 0x8f0ccc92, 0xffeff47d, 0x85845dd1,
   0x6fa87e4f, 0xfe2ce6e0, 0xa3014314, 0x4e0811a1,
   0xf7537e82, 0xbd3af235, 0x2ad7d2bb, 0xeb86d391]

/-- The four-word internal state. -/
structure MDState where
  a : Nat
  b : Nat
  c : Nat
  d : Nat
deriving DecidableEq

/-- The round function `F`, varying with the round index. -/
def auxF (i b c d : Nat) : Nat :=
  if i < 16 then b &&& c ||| notW b &&& d
  else if i < 32 then d &&& b ||| notW d &&& c
  else if i < 48 then b ^^^ c ^^^ d
  else c ^^^ (b ||| notW d)

/-- The message-word index used in round `i`. -/
def gIndex (i : Nat) : Nat :=
  if i < 16 then i
  else if i < 32 then (5 * i + 1) % 16
  else if i < 48 then (3 * i + 5) % 16
  else 7 * i % 16

/-- One of the 64 rounds applied to a 16-word message chunk. -/
def mdStep (m : List Nat) (st : MDState) (i : Nat) : MDState :=
  let f := (auxF i st.b st.c st.d + st.a + sineTable.getD i 0 + m.getD (gIndex i) 0) % M32
  ⟨st.d, (st.b + rotl f (shiftTable.getD i 0)) % M32, st.b, st.c⟩

/-- Process one 64-byte chunk (given as 16 little-endian words) and add the
result into the running state, modulo `2 ^ 32`. -/
def processChunk (st : MDState) (m : List Nat) : MDState :=
  let r := (List.range 64).foldl (mdStep m) st
  ⟨(st.a + r.a) % M32, (st.b + r.b) % M32, (st.c + r.c) % M32, (st.d + r.d) % M32⟩

/-- Pack a byte list into little-endian 32-bit words, four bytes at a time. -/
def toWords : List Nat → List Nat
  | b0 :: b1 :: b2 :: b3 :: rest =>
      (b0 + b1 * 256 + b2 * 65536 + b3 * 16777216) :: toWords rest
  | _ => []

/-- The eight little-endian bytes of the 64-bit message bit length. -/
def lenBytes (bitLen : Nat) : List Nat :=
  (List.range 8).map (fun i => bitLen / 256 ^ i % 256)

/-- MD5 padding: a `0x80` byte, zero bytes up to 56 modulo 64, then the
64-bit little-endian bit length. -/
def padBytes (msg : List Nat) : List Nat :=
  msg ++ [128] ++ List.replicate ((119 - msg.length % 64) % 64) 0 ++ lenBytes (8 * msg.length)

/-- Split a byte list into 64-byte chunks; the fuel argument (any bound on
the list length) keeps the recursion structural so the kernel can reduce it. -/
def splitChunksAux : Nat → List Nat → List (List Nat)
  | 0, _ => []
  | _ + 1, [] => []
  | fuel + 1, x :: rest => (x :: rest).take 64 :: splitChunksAux fuel ((x :: rest).drop 64)

/-- Split a byte list into 64-byte chunks. -/
def splitChunks (l : List Nat) : List (List Nat) := splitChunksAux l.length l

/-- The fixed initial state (RFC 1321). -/
def initState : MDState := ⟨0x67452301, 0xefcdab89, 0x98badcfe, 0x10325476⟩

/-- The final MD5 state for a byte message. -/
def md5Words (msg : List Nat) : MDState :=
  (splitChunks (padBytes msg)).foldl (fun st chunk => processChunk st (toWords chunk)) initState

/-- The 128-bit MD5 digest packed into one natural: the digest's sixteen
bytes in output order are exactly the little-endian bytes of this number. -/
def md5Nat (msg : List Nat) : Nat :=
  (md5Words msg).a % M32 + (md5Words msg).b % M32 * M32
    + (md5Words msg).c % M32 * (M32 * M32) + (md5Words msg).d % M32 * (M32 * M32 * M32)

/-- A hexadecimal digit character (`0`–`9`, `a`–`f`). -/
def hexDigit (n : Nat) : Char := Char.ofNat (if n < 10 then 48 + n else 87 + n)

/-- The two hex characters of one byte, high nibble first. -/
def byteHex (b : Nat) : List Char := [hexDigit (b / 16 % 16), hexDigit (b % 16)]

/-- Render a packed 128-bit digest as the usual 32-character lowercase hex
string (bytes taken little-endian, matching `hexdigest()`). -/
def md5Hex (n : Nat) : String :=
  String.mk (((List.range 16).map (fun i => n / 256 ^ i % 256)).map byteHex).flatten

/-- UTF-8 encoding of one Unicode scalar value. -/
def utf8Bytes (c : Nat) : List Nat :=
  if c < 128 then [c]
  else if c < 2048 then [192 + c / 64, 128 + c % 64]
  else if c < 65536 then [224 + c / 4096, 128 + c / 64 % 64, 128 + c % 64]
  else [240 + c / 262144, 128 + c / 4096 % 64, 128 + c / 64 % 64, 128 + c % 64]

/-- `str.encode()`: the UTF-8 bytes of a string. -/
def strBytes (str : String) : List Nat :=
  (str.data.map (fun c => utf8Bytes c.toNat)).flatten

end MD5

/-- Embedding of line 52:
`imageHash = hashlib.md5(outputCfg['image'].encode()).hexdigest()`. -/
def imageHash (image : String) : String := MD5.md5Hex (MD5.md5Nat (MD5.strBytes image))

/-! ## The `Output` collaborator (not under `src/`) -/

/-- The rendering options dict built on lines 59–63. -/
structure OutputParams where
  filterMode : String
  anchor : String
  scalingMode : String
deriving DecidableEq

/-- One write to the external display sink: set `imagePath` as the
background of output `outputName`. -/
structure SinkWrite where
  outputName : String
  imagePath : String
deriving DecidableEq

/-- Modelled from the spec: the `Output` class (spec §4.3) — per-monitor
entity holding its name, the cached wallpaper path, the ordered list of frame
paths and the opaque rendering options. -/
structure Output where
  name : String
  cachedImage : String
  blurFrames : List String
  params : OutputParams
deriving DecidableEq

/-- Modelled from the spec: `Output.blur()` — "plays the frame sequence
forward, from index 0 to index N-1, setting each frame as the active
background on the display sink in order". -/
def Output.blur (o : Output) : List SinkWrite :=
  o.blurFrames.map (fun p => ⟨o.name, p⟩)

/-- Modelled from the spec: `Output.unblur()` — "plays the same sequence
in reverse, from N-1 down to 0". -/
def Output.unblur (o : Output) : List SinkWrite :=
  o.blurFrames.reverse.map (fun p => ⟨o.name, p⟩)

/-! ## `BlurManager.__init__` (lines 36–77) -/

/-- One entry of the `outputConfigs` dict: the wallpaper path (`none` models
Python `None`; the empty string is also falsy) and the pass-through options. -/
structure OutputConfig where
  image : Option String
  filterMode : String
  anchor : String
  scalingMode : String
deriving DecidableEq

/-- The state accumulated by `BlurManager.__init__`: the `self.outputs`
mapping (newest binding first, matching dict overwrite), the file system,
and the trace of observable actions so far. -/
structure InitResult where
  outputs : List (String × Output)
  fs : FS
  trace : List Action
deriving DecidableEq

/-- The `Output` object constructed on lines 55–64 for a configured image,
with the hash already computed. -/
def mkOutputWithHash (blurStrength animationDuration : Nat)
    (name image imgHash : String) (cfg : OutputConfig) : Output :=
  ⟨name, cachedImagePath image imgHash,
    (animationFrames blurStrength animationDuration).map (framePath imgHash),
    ⟨cfg.filterMode, cfg.anchor, cfg.scalingMode⟩⟩

/-- Lines 52–77 for one configured image, with the `imageHash` of line 52
passed as the `imgHash` argument: construct the `Output` object, check the
wallpaper cache, and on a miss generate one frame per animation step with
the `multiprocessing` pool (the `genBlurredImage` fan-out appears in the
trace as one `generateFrame` action per frame). -/
def setupOutputWithHash (blurStrength animationDuration : Nat)
    (name image imgHash : String) (cfg : OutputConfig) (now : Nat)
    (acc : InitResult) : Option InitResult :=
  let frames := animationFrames blurStrength animationDuration
  let outputs := (name, mkOutputWithHash blurStrength animationDuration name image imgHash cfg) :: acc.outputs
  match verifyWallpaperCache image imgHash now acc.fs with
  | none => none
  | some (true, fs2, lg) =>
      some ⟨outputs, fs2,
        acc.trace ++ lg ++ [.printMsg ("Blurred wallpaper exists for " ++ name)]⟩
  | some (false, fs2, lg) =>
      some ⟨outputs, fs2,
        acc.trace ++ lg
          ++ [.printMsg "Generating blurred wallpaper frames",
              .printMsg "This may take a minute..."]
          ++ frames.map (fun f => .generateFrame (framePath imgHash f) f)
          ++ [.printMsg ("Blurred wallpaper generated for " ++ name)]⟩

/-- One iteration of the `for name in outputConfigs` loop (lines 45–77):
a falsy image (`None` or the empty string) only logs and continues,
otherwise lines 52–77 run with the MD5 hash of the image path. -/
def setupOutput (blurStrength animationDuration : Nat) (name : String)
    (cfg : OutputConfig) (now : Nat) (acc : InitResult) : Option InitResult :=
  match cfg.image with
  | none =>
      some { acc with trace := acc.trace ++ [.logInfo ("Output " ++ name ++ " has no wallpaper set")] }
  | some image =>
      if image = "" then
        some { acc with trace := acc.trace ++ [.logInfo ("Output " ++ name ++ " has no wallpaper set")] }
      else
        setupOutputWithHash blurStrength animationDuration name image (imageHash image) cfg now acc

/-- The loop of lines 45–77 starting from a given accumulated state; an
uncaught exception in an iteration aborts the whole loop. -/
def initFrom (blurStrength animationDuration now : Nat) :
    List (String × OutputConfig) → InitResult → Option InitResult
  | [], acc => some acc
  | (name, cfg) :: rest, acc =>
    match setupOutput blurStrength animationDuration name cfg now acc with
    | none => none
    | some acc2 => initFrom blurStrength animationDuration now rest acc2

/-- Embedding of `BlurManager.__init__(outputConfigs, blurStrength,
animationDuration)` (lines 36–77): iterate over the configuration dict (given
in its iteration order), building `self.outputs` and ensuring every
configured wallpaper's cache and frames. `none` models an uncaught exception
(a configured wallpaper file that does not exist). -/
def blurManagerInit (outputConfigs : List (String × OutputConfig))
    (blurStrength animationDuration now : Nat) (fs : FS) : Option InitResult :=
  initFrom blurStrength animationDuration now outputConfigs ⟨[], fs, []⟩

/-! ## `BlurManager.start` (lines 80–86) -/

/-- Embedding of `BlurManager.start()` (lines 80–86): subscribe the handler
to the four event kinds and enter the blocking `i3ipc` listen loop. -/
def blurManagerStart : List Action :=
  [.subscribe "window::new", .subscribe "window::close",
   .subscribe "window::move", .subscribe "workspace::focus", .listen]

/-- A whole run of the program: `BlurManager(...)` followed by `.start()` —
the `__init__` trace, then the subscriptions and the listen loop. `none`
models the process dying during `__init__`. -/
def blurManagerRun (outputConfigs : List (String × OutputConfig))
    (blurStrength animationDuration now : Nat) (fs : FS) : Option (List Action) :=
  (blurManagerInit outputConfigs blurStrength animationDuration now fs).map
    (fun r => r.trace ++ blurManagerStart)

/-! ## `BlurManager.handleBlur` (lines 89–101) -/

/-- The workspace node returned by `focusedWindow.workspace()`: its tree node
id and its `ipc_data['output']` name. -/
structure Workspace where
  wsId : Nat
  outputName : String
deriving DecidableEq

/-- The node returned by `find_focused()`: its tree node id and its
workspace, `none` when the node has no workspace ancestor. Python object
identity (`==` on `i3ipc.Con`, which defines no `__eq__`) is modelled by
node-id equality. -/
structure FocusedNode where
  nodeId : Nat
  workspace : Option Workspace
deriving DecidableEq

/-- The result of `self.SWAY.get_tree()`, as consumed by the handler:
the focused node, `none` when no node is focused. -/
structure TreeQuery where
  findFocused : Option FocusedNode
deriving DecidableEq

/-- A Python exception escaping or raised inside the handler. -/
inductive PyErr where
  | attributeError
  | keyError
deriving DecidableEq

/-- An animation call dispatched to an `Output`. -/
inductive AnimCall where
  | blurCall (o : Output)
  | unblurCall (o : Output)
deriving DecidableEq

/-- The display-sink writes an animation call performs (spec §4.3). -/
def AnimCall.writes : AnimCall → List SinkWrite
  | .blurCall o => o.blur
  | .unblurCall o => o.unblur

/-- What one handler invocation did: the animation calls dispatched and the
log records emitted. -/
structure HandleResult where
  calls : List AnimCall
  logs : List Action
deriving DecidableEq

/-- All display-sink writes of one handler invocation. -/
def HandleResult.sinkWrites (r : HandleResult) : List SinkWrite :=
  (r.calls.map AnimCall.writes).flatten

/-- Embedding of `BlurManager.handleBlur` (lines 89–101): query the current
tree for the focused node (`None.workspace()` and `None.ipc_data` raise
`AttributeError`, which nothing catches), compare the focused node with its
workspace (an empty workspace is focused as itself), and dispatch
`unblur`/`blur` on the owning output; a missing key in `self.outputs` raises
`KeyError`, which is caught and logged at info level. -/
def handleBlur (tree : TreeQuery) (outputs : List (String × Output)) :
    Except PyErr HandleResult :=
  match tree.findFocused with
  | none => .error .attributeError
  | some focusedWindow =>
    match focusedWindow.workspace with
    | none => .error .attributeError
    | some focusedWorkspace =>
      let focusedOutputName := focusedWorkspace.outputName
      if focusedWindow.nodeId = focusedWorkspace.wsId then
        match List.lookup focusedOutputName outputs with
        | some o => .ok ⟨[.unblurCall o], []⟩
        | none => .ok ⟨[], [.logInfo ("Output " ++ focusedOutputName ++ " is not an Output object")]⟩
      else
        match List.lookup focusedOutputName outputs with
        | some o => .ok ⟨[.blurCall o], []⟩
        | none => .ok ⟨[], [.logInfo ("Output " ++ focusedOutputName ++ " is not an Output object")]⟩

/-- Modelled from the spec: the `i3ipc` listen loop entered by
`self.SWAY.main()` — "single logical stream of window-manager events
processed one at a time, in the order received"; an exception escaping the
handler aborts the loop, a handler that returns normally lets the loop
continue with the next event. -/
def eventLoop (outputs : List (String × Output)) : List TreeQuery → List HandleResult
  | [] => []
  | q :: rest =>
    match handleBlur q outputs with
    | .error _ => []
    | .ok r => r :: eventLoop outputs rest

/-! # Theorems -/

/-! ## Claim C1 -/

/-- The file system for the C1 failing input: the wallpaper `/w.png` has been
replaced with byte `2` while the cached copy still holds byte `1`; both files
have size 1 and mtime 100. -/
def c1FS : FS := [("/w.png", ⟨[2], 100⟩), (cachedImagePath "/w.png" "h", ⟨[1], 100⟩)]

/-- Claim C1: the claim (and the spec) say `verifyWallpaperCache` compares
full file contents and reports a miss whenever the wallpaper bytes changed,
even at unchanged file size. The code instead calls `filecmp.cmp` with its
default `shallow=True`: when the replaced file keeps the old size and mtime,
the stat signatures agree and the function reports a cache hit without
reading a single byte, leaving the stale cached copy in place. This theorem
evaluates the code at that failing input: contents differ, yet the result is
`true` with the file system unchanged. -/
theorem verifyWallpaperCache_false_hit_same_size_mtime :
    (c1FS.lookup "/w.png").map FileData.content = some [2] ∧
    (c1FS.lookup (cachedImagePath "/w.png" "h")).map FileData.content = some [1] ∧
    verifyWallpaperCache "/w.png" "h" 200 c1FS =
      some (true, c1FS, [.logInfo "wallpaper /w.png is cached as cache/h"]) := by
  refine ⟨rfl, rfl, rfl⟩

/-! ## Claim C2 -/

/-- Counterexample to Claim C2: for `maxStrength = 1`, `N = 2` (both positive
integers) the schedule is `[0, 0]`, which is not strictly increasing. -/
theorem animationFrames_not_strictly_increasing :
    animationFrames 1 2 = [0, 0] ∧ ¬ (animationFrames 1 2).Pairwise (· < ·) := by
  exact ⟨rfl, by decide⟩

/-- Claim C2 (amended): for every positive `maxStrength` and positive `N`,
the schedule is `(i+1) * (maxStrength / N)` for `i = 0..N-1`, of length
exactly `N`, with last element `N * (maxStrength / N) ≤ maxStrength`; it is
strictly increasing **provided** `maxStrength ≥ N` (otherwise the integer
division is 0 and the schedule is constantly 0); and for `maxStrength = 20`,
`N = 4` it is `[5, 10, 15, 20]`. -/
theorem animationFrames_schedule (m N : Nat) (hN : 0 < N) :
    animationFrames m N = (List.range N).map (fun i => (i + 1) * (m / N)) ∧
    (N ≤ m → (animationFrames m N).Pairwise (· < ·)) ∧
    (animationFrames m N).length = N ∧
    (animationFrames m N).getLast? = some (N * (m / N)) ∧
    N * (m / N) ≤ m ∧
    animationFrames 20 4 = [5, 10, 15, 20] := by
  have hlen : (animationFrames m N).length = N := by
    unfold animationFrames
    rw [List.length_map, List.length_range]
  refine ⟨rfl, ?_, hlen, ?_, ?_, by decide⟩
  · intro hm
    have hq : 1 ≤ m / N := (Nat.one_le_div_iff hN).mpr hm
    unfold animationFrames
    refine List.Pairwise.map _ (fun a b hab => ?_) (List.pairwise_lt_range N)
    exact Nat.mul_lt_mul_of_lt_of_le (by omega) (le_refl _) (by omega)
  · rw [List.getLast?_eq_getElem?, hlen]
    unfold animationFrames
    rw [List.getElem?_map, List.getElem?_range (by omega)]
    simp only [Option.map_some']
    congr 2
    omega
  · calc N * (m / N) = m / N * N := Nat.mul_comm _ _
      _ ≤ m := Nat.div_mul_le_self m N

/-- Witness for Claim C2's theorem at `maxStrength = 20`, `N = 4`. -/
theorem animationFrames_schedule_witness :
    animationFrames 20 4 = (List.range 4).map (fun i => (i + 1) * (20 / 4)) ∧
    (animationFrames 20 4).Pairwise (· < ·) ∧
    (animationFrames 20 4).length = 4 ∧
    (animationFrames 20 4).getLast? = some (4 * (20 / 4)) ∧
    4 * (20 / 4) ≤ 20 ∧
    animationFrames 20 4 = [5, 10, 15, 20] :=
  ⟨(animationFrames_schedule 20 4 (by decide)).1,
   (animationFrames_schedule 20 4 (by decide)).2.1 (by decide),
   (animationFrames_schedule 20 4 (by decide)).2.2.1,
   (animationFrames_schedule 20 4 (by decide)).2.2.2.1,
   (animationFrames_schedule 20 4 (by decide)).2.2.2.2.1,
   (animationFrames_schedule 20 4 (by decide)).2.2.2.2.2⟩

/-! ## Claim C4 -/

/-- Claim C4: the claim says a filter invocation that fails during frame
generation is fatal before the event loop. The code calls `subprocess.run`
without `check=True` and only catches `FileNotFoundError`, so an invocation
that runs and exits nonzero (here return code 1) is not detected: the
function does not exit, and it logs `Generated image ...` even though no
frame was produced — so startup proceeds to the event loop with the frame
missing. -/
theorem genBlurredImage_failed_invocation_not_fatal :
    genBlurredImage "cache/h" (framePath "h" 5) 5 (.completed 1) =
      ⟨["convert", "cache/h", "-blur", "0x5", framePath "h" 5], false,
        [.logInfo ("Generated image " ++ framePath "h" 5)]⟩ := rfl

/-! ## Claim C3 -/

/-- The file system for the C3 counterexample: the wallpaper `/p.png` holds
bytes `[3, 4]`, the cached copy holds the different bytes `[5, 6]`, and both
files have size 2 and mtime 7. -/
def c3FS : FS := [("/p.png", ⟨[3, 4], 7⟩), (cachedImagePath "/p.png" "g", ⟨[5, 6], 7⟩)]

/-- Counterexample to Claim C3: the claim says that whenever the cached file
is not byte-identical to the source, `verifyWallpaperCache` copies the source
over it and returns `false`. Here the cached copy's bytes differ from the
source's, yet the call returns `true` and performs no copy (the shallow
`filecmp.cmp` stat-signature check hits first). -/
theorem verifyWallpaperCache_hit_without_byte_identity :
    (c3FS.lookup (cachedImagePath "/p.png" "g")).map FileData.content ≠
      (c3FS.lookup "/p.png").map FileData.content ∧
    verifyWallpaperCache "/p.png" "g" 9 c3FS =
      some (true, c3FS, [.logInfo "wallpaper /p.png is cached as cache/g"]) := by
  exact ⟨by decide, rfl⟩

/-- Claim C3 (amended): `verifyWallpaperCache` returns `true` with no side
effect when a file exists at the cached path and is byte-identical to the
source **or** shares its stat signature (size, mtime) with the source;
otherwise — when no file exists at the cached path, or the existing cached
file differs from the source in both stat signature and byte content — it
copies the source over the cached path (overwriting any stale content) and
returns `false`; consequently two successive calls with unchanged source
content starting from an empty cache return `(false, true)` — a miss then a
hit — and the second call performs no copy. -/
theorem verifyWallpaperCache_protocol (p hsh : String) (now now2 : Nat) (fs : FS)
    (src : FileData) (hsrc : fs.lookup p = some src) :
    (∀ cf, fs.lookup (cachedImagePath p hsh) = some cf →
      (cf.content = src.content ∨ statSig cf = statSig src) →
      verifyWallpaperCache p hsh now fs =
        some (true, fs,
          [.logInfo ("wallpaper " ++ p ++ " is cached as " ++ cachedImagePath p hsh)])) ∧
    (∀ cf, fs.lookup (cachedImagePath p hsh) = some cf →
      statSig cf ≠ statSig src → cf.content ≠ src.content →
      verifyWallpaperCache p hsh now fs =
        some (false, (cachedImagePath p hsh, ⟨src.content, now⟩) :: fs,
          [.logInfo ("wallpaper " ++ p ++ " added to the cache as " ++ cachedImagePath p hsh),
           .copyFile p (cachedImagePath p hsh)])) ∧
    (fs.lookup (cachedImagePath p hsh) = none →
      verifyWallpaperCache p hsh now fs =
        some (false, (cachedImagePath p hsh, ⟨src.content, now⟩) :: fs,
          [.logInfo ("wallpaper " ++ p ++ " added to the cache as " ++ cachedImagePath p hsh),
           .copyFile p (cachedImagePath p hsh)])) ∧
    (fs.lookup (cachedImagePath p hsh) = none →
      verifyWallpaperCache p hsh now2 ((cachedImagePath p hsh, ⟨src.content, now⟩) :: fs) =
        some (true, (cachedImagePath p hsh, ⟨src.content, now⟩) :: fs,
          [.logInfo ("wallpaper " ++ p ++ " is cached as " ++ cachedImagePath p hsh)])) := by
  refine ⟨?_, ?_, ?_, ?_⟩
  · intro cf hcf hcmp
    have hcc : cacheHitCheck fs p (cachedImagePath p hsh) = some true := by
      unfold cacheHitCheck filecmpCmp
      simp only [pathsExists, hcf, hsrc, Option.isSome_some, if_true]
      by_cases hsig : statSig src = statSig cf
      · simp [hsig]
      · rcases hcmp with hcmp | hcmp
        · have hsize : src.size = cf.size := by
            unfold FileData.size; rw [hcmp]
          simp [hsig, hsize, hcmp]
        · exact absurd hcmp.symm hsig
    unfold verifyWallpaperCache
    rw [hcc]
  · intro cf hcf hsig hcont
    have hcc : cacheHitCheck fs p (cachedImagePath p hsh) = some false := by
      unfold cacheHitCheck filecmpCmp
      simp only [pathsExists, hcf, hsrc, Option.isSome_some, if_true]
      rw [if_neg (fun h => hsig h.symm)]
      by_cases hsize : src.size = cf.size
      · rw [if_neg (fun h => h hsize)]
        have : decide (src.content = cf.content) = false :=
          decide_eq_false (fun h => hcont h.symm)
        rw [this]
      · rw [if_pos hsize]
    unfold verifyWallpaperCache
    rw [hcc]
    simp only [FS.lookup] at hsrc ⊢
    rw [hsrc]
  · intro hnone
    have hcc : cacheHitCheck fs p (cachedImagePath p hsh) = some false := by
      unfold cacheHitCheck
      simp [pathsExists, hnone]
    unfold verifyWallpaperCache
    rw [hcc]
    simp only [FS.lookup] at hsrc ⊢
    rw [hsrc]
  · intro hnone
    have hne : (p == cachedImagePath p hsh) = false := by
      refine beq_eq_false_iff_ne.mpr (fun h => ?_)
      rw [h, hnone] at hsrc
      exact Option.noConfusion hsrc
    have hlu : FS.lookup ((cachedImagePath p hsh, (⟨src.content, now⟩ : FileData)) :: fs)
        (cachedImagePath p hsh) = some ⟨src.content, now⟩ := by
      simp [FS.lookup, List.lookup]
    have hlup : FS.lookup ((cachedImagePath p hsh, (⟨src.content, now⟩ : FileData)) :: fs) p
        = some src := by
      simp only [FS.lookup, List.lookup, hne]
      exact hsrc
    have hcc : cacheHitCheck ((cachedImagePath p hsh, (⟨src.content, now⟩ : FileData)) :: fs) p
        (cachedImagePath p hsh) = some true := by
      unfold cacheHitCheck filecmpCmp
      simp only [pathsExists, hlu, hlup, Option.isSome_some, if_true]
      by_cases hsig : statSig src = statSig ⟨src.content, now⟩
      · simp [hsig]
      · simp [hsig, FileData.size]
    unfold verifyWallpaperCache
    rw [hcc]

/-- Witness for Claim C3's theorem: a concrete miss-then-hit pair of calls on
the wallpaper `/a` with bytes `[9, 9]` starting from an empty cache, and a
concrete overwrite-and-miss on the wallpaper `/b` whose stale cached copy
differs in bytes and mtime (equal size, so the full byte comparison runs). -/
theorem verifyWallpaperCache_protocol_witness :
    verifyWallpaperCache "/a" "k" 1 [("/a", ⟨[9, 9], 3⟩)] =
      some (false, (cachedImagePath "/a" "k", ⟨[9, 9], 1⟩) :: [("/a", ⟨[9, 9], 3⟩)],
        [.logInfo ("wallpaper /a added to the cache as " ++ cachedImagePath "/a" "k"),
         .copyFile "/a" (cachedImagePath "/a" "k")]) ∧
    verifyWallpaperCache "/a" "k" 2 ((cachedImagePath "/a" "k", ⟨[9, 9], 1⟩) :: [("/a", ⟨[9, 9], 3⟩)]) =
      some (true, (cachedImagePath "/a" "k", ⟨[9, 9], 1⟩) :: [("/a", ⟨[9, 9], 3⟩)],
        [.logInfo ("wallpaper /a is cached as " ++ cachedImagePath "/a" "k")]) ∧
    verifyWallpaperCache "/b" "m" 5 [("/b", ⟨[9, 9], 3⟩), (cachedImagePath "/b" "m", ⟨[7, 8], 4⟩)] =
      some (false,
        (cachedImagePath "/b" "m", ⟨[9, 9], 5⟩)
          :: [("/b", ⟨[9, 9], 3⟩), (cachedImagePath "/b" "m", ⟨[7, 8], 4⟩)],
        [.logInfo ("wallpaper /b added to the cache as " ++ cachedImagePath "/b" "m"),
         .copyFile "/b" (cachedImagePath "/b" "m")]) :=
  ⟨(verifyWallpaperCache_protocol "/a" "k" 1 2 [("/a", ⟨[9, 9], 3⟩)] ⟨[9, 9], 3⟩ rfl).2.2.1 rfl,
   (verifyWallpaperCache_protocol "/a" "k" 1 2 [("/a", ⟨[9, 9], 3⟩)] ⟨[9, 9], 3⟩ rfl).2.2.2 rfl,
   (verifyWallpaperCache_protocol "/b" "m" 5 6
      [("/b", ⟨[9, 9], 3⟩), (cachedImagePath "/b" "m", ⟨[7, 8], 4⟩)] ⟨[9, 9], 3⟩ rfl).2.1
    ⟨[7, 8], 4⟩ rfl (by decide) (by decide)⟩

/-! ## Claim C6 -/

/-- Claim C6: whenever the tree query resolves a focused node and its
workspace and the owning output is configured, the handler dispatches exactly
one animation call: `unblur()` (and never `blur()`) when the focused node is
the workspace itself (empty workspace), and `blur()` (and never `unblur()`)
otherwise. -/
theorem handleBlur_dispatch (tree : TreeQuery) (outputs : List (String × Output))
    (fw : FocusedNode) (ws : Workspace) (o : Output)
    (hf : tree.findFocused = some fw) (hw : fw.workspace = some ws)
    (ho : List.lookup ws.outputName outputs = some o) :
    (fw.nodeId = ws.wsId →
      handleBlur tree outputs = .ok ⟨[.unblurCall o], []⟩) ∧
    (fw.nodeId ≠ ws.wsId →
      handleBlur tree outputs = .ok ⟨[.blurCall o], []⟩) := by
  constructor
  · intro h
    simp [handleBlur, hf, hw, ho, h]
  · intro h
    simp [handleBlur, hf, hw, ho, h]

/-- The concrete `Output` object used in handler witnesses. -/
def witnessOutput : Output :=
  ⟨"HDMI-1", cachedImagePath "/w.png" "h", [framePath "h" 5, framePath "h" 10], ⟨"f", "a", "s"⟩⟩

/-- Witness for Claim C6's theorem: an empty workspace (focused node id 7 =
workspace id 7) dispatches `unblur`, a non-empty one (focused node id 8 ≠
workspace id 7) dispatches `blur`. -/
theorem handleBlur_dispatch_witness :
    handleBlur ⟨some ⟨7, some ⟨7, "HDMI-1"⟩⟩⟩ [("HDMI-1", witnessOutput)] =
      .ok ⟨[.unblurCall witnessOutput], []⟩ ∧
    handleBlur ⟨some ⟨8, some ⟨7, "HDMI-1"⟩⟩⟩ [("HDMI-1", witnessOutput)] =
      .ok ⟨[.blurCall witnessOutput], []⟩ :=
  ⟨(handleBlur_dispatch ⟨some ⟨7, some ⟨7, "HDMI-1"⟩⟩⟩ [("HDMI-1", witnessOutput)]
      ⟨7, some ⟨7, "HDMI-1"⟩⟩ ⟨7, "HDMI-1"⟩ witnessOutput rfl rfl rfl).1 rfl,
   (handleBlur_dispatch ⟨some ⟨8, some ⟨7, "HDMI-1"⟩⟩⟩ [("HDMI-1", witnessOutput)]
      ⟨8, some ⟨7, "HDMI-1"⟩⟩ ⟨7, "HDMI-1"⟩ witnessOutput rfl rfl rfl).2 (by decide)⟩

/-! ## Claim C7 -/

/-- Claim C7: an event whose resolved output name is absent from the
configured mapping raises nothing out of the handler (the `KeyError` is
caught), performs no display-sink write, logs the situation at info
severity, and the loop goes on to process the remaining events. -/
theorem handleBlur_unknown_output (tree : TreeQuery) (outputs : List (String × Output))
    (rest : List TreeQuery) (fw : FocusedNode) (ws : Workspace)
    (hf : tree.findFocused = some fw) (hw : fw.workspace = some ws)
    (ho : List.lookup ws.outputName outputs = none) :
    handleBlur tree outputs =
      .ok ⟨[], [.logInfo ("Output " ++ ws.outputName ++ " is not an Output object")]⟩ ∧
    HandleResult.sinkWrites
      ⟨[], [.logInfo ("Output " ++ ws.outputName ++ " is not an Output object")]⟩ = [] ∧
    eventLoop outputs (tree :: rest) =
      ⟨[], [.logInfo ("Output " ++ ws.outputName ++ " is not an Output object")]⟩ ::
        eventLoop outputs rest := by
  have hh : handleBlur tree outputs =
      .ok ⟨[], [.logInfo ("Output " ++ ws.outputName ++ " is not an Output object")]⟩ := by
    by_cases h : fw.nodeId = ws.wsId
    · simp [handleBlur, hf, hw, ho, h]
    · simp [handleBlur, hf, hw, ho, h]
  refine ⟨hh, rfl, ?_⟩
  simp only [eventLoop, hh]

/-- Witness for Claim C7's theorem: an event on output `DP-9`, which has no
configured `Output` object, followed by one more event. -/
theorem handleBlur_unknown_output_witness :
    handleBlur ⟨some ⟨7, some ⟨7, "DP-9"⟩⟩⟩ [("HDMI-1", witnessOutput)] =
      .ok ⟨[], [.logInfo "Output DP-9 is not an Output object"]⟩ ∧
    HandleResult.sinkWrites ⟨[], [.logInfo "Output DP-9 is not an Output object"]⟩ = [] ∧
    eventLoop [("HDMI-1", witnessOutput)] [⟨some ⟨7, some ⟨7, "DP-9"⟩⟩⟩, ⟨some ⟨7, some ⟨7, "HDMI-1"⟩⟩⟩] =
      ⟨[], [.logInfo "Output DP-9 is not an Output object"]⟩ ::
        eventLoop [("HDMI-1", witnessOutput)] [⟨some ⟨7, some ⟨7, "HDMI-1"⟩⟩⟩] :=
  handleBlur_unknown_output ⟨some ⟨7, some ⟨7, "DP-9"⟩⟩⟩ [("HDMI-1", witnessOutput)]
    [⟨some ⟨7, some ⟨7, "HDMI-1"⟩⟩⟩] ⟨7, some ⟨7, "DP-9"⟩⟩ ⟨7, "DP-9"⟩ rfl rfl rfl

/-! ## Claim C9 -/

/-- Counterexample to Claim C9: the handler does **not** return normally for
every possible query result. When `find_focused()` returns no node (`None`),
the attribute access `None.workspace()` raises `AttributeError`, which the
`try` block (which only catches `KeyError`) does not contain, so the
exception escapes the handler and the loop stops: with a second, healthy
event queued behind the failing one, the loop processes neither. -/
theorem handleBlur_no_focused_raises :
    handleBlur ⟨none⟩ [("HDMI-1", witnessOutput)] = .error .attributeError ∧
    eventLoop [("HDMI-1", witnessOutput)]
      [⟨none⟩, ⟨some ⟨7, some ⟨7, "HDMI-1"⟩⟩⟩] = [] := by
  exact ⟨rfl, rfl⟩

/-- Claim C9 (amended): for every event whose tree query resolves a focused
node and its workspace, the handler returns normally whatever the `Output`
lookup yields — the `KeyError` from an unconfigured output name is contained.
(An event whose query resolves no focused node raises `AttributeError` out of
the handler and aborts the loop.) -/
theorem handleBlur_lookup_contained (tree : TreeQuery) (outputs : List (String × Output))
    (fw : FocusedNode) (ws : Workspace)
    (hf : tree.findFocused = some fw) (hw : fw.workspace = some ws) :
    ∃ r, handleBlur tree outputs = .ok r := by
  cases hlk : List.lookup ws.outputName outputs with
  | none =>
    by_cases h : fw.nodeId = ws.wsId
    · exact ⟨⟨[], [.logInfo ("Output " ++ ws.outputName ++ " is not an Output object")]⟩,
        by simp [handleBlur, hf, hw, hlk, h]⟩
    · exact ⟨⟨[], [.logInfo ("Output " ++ ws.outputName ++ " is not an Output object")]⟩,
        by simp [handleBlur, hf, hw, hlk, h]⟩
  | some o =>
    by_cases h : fw.nodeId = ws.wsId
    · exact ⟨⟨[.unblurCall o], []⟩, by simp [handleBlur, hf, hw, hlk, h]⟩
    · exact ⟨⟨[.blurCall o], []⟩, by simp [handleBlur, hf, hw, hlk, h]⟩

/-- Witness for Claim C9's theorem: a concrete event on an unconfigured
output name is handled without an exception. -/
theorem handleBlur_lookup_contained_witness :
    ∃ r, handleBlur ⟨some ⟨3, some ⟨4, "DP-9"⟩⟩⟩ [] = .ok r :=
  handleBlur_lookup_contained ⟨some ⟨3, some ⟨4, "DP-9"⟩⟩⟩ [] ⟨3, some ⟨4, "DP-9"⟩⟩
    ⟨4, "DP-9"⟩ rfl rfl

/-! ## Shared helper lemmas about the cache-verify and setup traces -/

/-- `verifyWallpaperCache` only ever logs and copies: no action it emits is a
frame generation, a frame-existence verification, a subscription, or entering
the listen loop. -/
theorem verifyWallpaperCache_actions (p hsh : String) (now : Nat) (fs : FS)
    (b : Bool) (fs2 : FS) (lg : List Action)
    (h : verifyWallpaperCache p hsh now fs = some (b, fs2, lg)) :
    ∀ a ∈ lg, a.isGenerateFrame = false ∧ a.isVerifyFrameExists = false ∧
      a.isSubscribe = false ∧ a.isListen = false := by
  unfold verifyWallpaperCache at h
  split at h
  · exact absurd h (by simp)
  · simp only [Option.some.injEq, Prod.mk.injEq] at h
    obtain ⟨-, -, rfl⟩ := h
    intro a ha
    rw [List.mem_singleton] at ha
    subst ha
    exact ⟨rfl, rfl, rfl, rfl⟩
  · split at h
    · exact absurd h (by simp)
    · simp only [Option.some.injEq, Prod.mk.injEq] at h
      obtain ⟨-, -, rfl⟩ := h
      intro a ha
      rcases List.mem_pair.mp ha with rfl | rfl
      · exact ⟨rfl, rfl, rfl, rfl⟩
      · exact ⟨rfl, rfl, rfl, rfl⟩

/-! ## Claim C5 -/

/-- The file system for the C5 counterexample: the wallpaper `/q.png` and a
byte-identical cached copy exist, but no frame file does (for example after
an interrupted previous run). -/
def c5FS : FS := [("/q.png", ⟨[8], 3⟩), (cachedImagePath "/q.png" "k", ⟨[8], 3⟩)]

/-- The configuration entry for the C5 counterexample. -/
def c5Cfg : OutputConfig := ⟨some "/q.png", "f", "a", "s"⟩

/-- Counterexample to Claim C5: the claim says that when generation is
skipped because of a cache hit, the system verifies that each frame file
exists before trusting them. In this run every frame file of the schedule is
missing, the cache check hits, and the setup step's complete action trace
contains no frame-existence verification (and no generation): the missing
frames are trusted as-is. -/
theorem setupOutput_hit_trusts_missing_frames :
    (animationFrames 10 2).all (fun f => (c5FS.lookup (framePath "k" f)).isNone) = true ∧
    setupOutputWithHash 10 2 "eDP-1" "/q.png" "k" c5Cfg 4 ⟨[], c5FS, []⟩ =
      some ⟨[("eDP-1", mkOutputWithHash 10 2 "eDP-1" "/q.png" "k" c5Cfg)], c5FS,
        [.logInfo "wallpaper /q.png is cached as cache/k",
         .printMsg "Blurred wallpaper exists for eDP-1"]⟩ ∧
    [Action.logInfo "wallpaper /q.png is cached as cache/k",
     Action.printMsg "Blurred wallpaper exists for eDP-1"].all
      (fun a => !a.isVerifyFrameExists) = true := by
  exact ⟨rfl, rfl, rfl⟩

/-- Claim C5 (amended): frame generation for an output is triggered if and
only if the cache check reports a miss for its wallpaper: on a hit the setup
step appends no generation action — but also no frame-existence verification
of any kind, trusting the frames blindly — and on a miss it generates one
frame per schedule entry. (`setupOutputWithHash` is lines 52–77 with the
MD5 hash of line 52 passed as the `imgHash` argument.) -/
theorem setupOutput_generation_iff_miss (bs ad : Nat) (name image imgHash : String)
    (cfg : OutputConfig) (now : Nat) (acc : InitResult) :
    (∀ fs2 lg, verifyWallpaperCache image imgHash now acc.fs = some (true, fs2, lg) →
      setupOutputWithHash bs ad name image imgHash cfg now acc =
        some ⟨(name, mkOutputWithHash bs ad name image imgHash cfg) :: acc.outputs, fs2,
          acc.trace ++ lg ++ [Action.printMsg ("Blurred wallpaper exists for " ++ name)]⟩ ∧
      (lg ++ [Action.printMsg ("Blurred wallpaper exists for " ++ name)]).all
        (fun a => !a.isGenerateFrame && !a.isVerifyFrameExists) = true) ∧
    (∀ fs2 lg, verifyWallpaperCache image imgHash now acc.fs = some (false, fs2, lg) →
      setupOutputWithHash bs ad name image imgHash cfg now acc =
        some ⟨(name, mkOutputWithHash bs ad name image imgHash cfg) :: acc.outputs, fs2,
          acc.trace ++ lg
            ++ [Action.printMsg "Generating blurred wallpaper frames",
                Action.printMsg "This may take a minute..."]
            ++ (animationFrames bs ad).map (fun f => Action.generateFrame (framePath imgHash f) f)
            ++ [Action.printMsg ("Blurred wallpaper generated for " ++ name)]⟩) := by
  constructor
  · intro fs2 lg hver
    constructor
    · unfold setupOutputWithHash
      rw [hver]
    · rw [List.all_append]
      refine Bool.and_eq_true_iff.mpr ⟨?_, rfl⟩
      refine List.all_eq_true.mpr (fun a ha => ?_)
      obtain ⟨h1, h2, -, -⟩ := verifyWallpaperCache_actions image imgHash now acc.fs true fs2 lg hver a ha
      rw [h1, h2]
      rfl
  · intro fs2 lg hver
    unfold setupOutputWithHash
    rw [hver]

/-- Witness for Claim C5's theorem: a concrete miss (empty cache) generates
one frame per schedule entry for the wallpaper `/q2.png`. -/
theorem setupOutput_generation_iff_miss_witness :
    setupOutputWithHash 10 2 "X" "/q2.png" "j" ⟨some "/q2.png", "f", "a", "s"⟩ 1
        ⟨[], [("/q2.png", ⟨[1], 0⟩)], []⟩ =
      some ⟨[("X", mkOutputWithHash 10 2 "X" "/q2.png" "j" ⟨some "/q2.png", "f", "a", "s"⟩)],
        (cachedImagePath "/q2.png" "j", ⟨[1], 1⟩) :: [("/q2.png", ⟨[1], 0⟩)],
        [] ++ [Action.logInfo ("wallpaper /q2.png added to the cache as " ++ cachedImagePath "/q2.png" "j"),
               Action.copyFile "/q2.png" (cachedImagePath "/q2.png" "j")]
           ++ [Action.printMsg "Generating blurred wallpaper frames",
               Action.printMsg "This may take a minute..."]
           ++ (animationFrames 10 2).map (fun f => Action.generateFrame (framePath "j" f) f)
           ++ [Action.printMsg "Blurred wallpaper generated for X"]⟩ :=
  (setupOutput_generation_iff_miss 10 2 "X" "/q2.png" "j" ⟨some "/q2.png", "f", "a", "s"⟩ 1
      ⟨[], [("/q2.png", ⟨[1], 0⟩)], []⟩).2
    ((cachedImagePath "/q2.png" "j", ⟨[1], 1⟩) :: [("/q2.png", ⟨[1], 0⟩)])
    [Action.logInfo ("wallpaper /q2.png added to the cache as " ++ cachedImagePath "/q2.png" "j"),
     Action.copyFile "/q2.png" (cachedImagePath "/q2.png" "j")] rfl

/-! ## Claim C8 -/

/-- One loop iteration of `__init__` only extends the trace with setup-phase
actions: if the accumulated trace contains no subscription and no listen
action, neither does the resulting trace. -/
theorem setupOutput_trace (bs ad : Nat) (name : String) (cfg : OutputConfig)
    (now : Nat) (acc res : InitResult)
    (h : setupOutput bs ad name cfg now acc = some res)
    (hacc : acc.trace.all (fun a => !a.isSubscribe && !a.isListen) = true) :
    res.trace.all (fun a => !a.isSubscribe && !a.isListen) = true := by
  unfold setupOutput at h
  split at h
  · obtain rfl := Option.some.inj h
    rw [List.all_append, hacc]
    rfl
  · next image himg =>
    split at h
    · obtain rfl := Option.some.inj h
      rw [List.all_append, hacc]
      rfl
    · unfold setupOutputWithHash at h
      split at h
      · exact absurd h (by simp)
      · next fs2 lg heq =>
          obtain rfl := Option.some.inj h
          have hlg : lg.all (fun a => !a.isSubscribe && !a.isListen) = true := by
            refine List.all_eq_true.mpr (fun a ha => ?_)
            obtain ⟨-, -, h3, h4⟩ := verifyWallpaperCache_actions _ _ _ _ _ _ _ heq a ha
            rw [h3, h4]
            rfl
          rw [List.all_append, List.all_append, hacc, hlg]
          rfl
      · next fs2 lg heq =>
          obtain rfl := Option.some.inj h
          have hlg : lg.all (fun a => !a.isSubscribe && !a.isListen) = true := by
            refine List.all_eq_true.mpr (fun a ha => ?_)
            obtain ⟨-, -, h3, h4⟩ := verifyWallpaperCache_actions _ _ _ _ _ _ _ heq a ha
            rw [h3, h4]
            rfl
          have hmap : ((animationFrames bs ad).map
              (fun f => Action.generateFrame (framePath (imageHash image) f) f)).all
              (fun a => !a.isSubscribe && !a.isListen) = true := by
            refine List.all_eq_true.mpr (fun a ha => ?_)
            obtain ⟨f, -, rfl⟩ := List.mem_map.mp ha
            rfl
          rw [List.all_append, List.all_append, List.all_append, List.all_append,
            hacc, hlg, hmap]
          rfl

/-- The whole `__init__` loop only emits setup-phase actions: no
subscription, no listen action. -/
theorem initFrom_trace (bs ad now : Nat) :
    ∀ (cfgs : List (String × OutputConfig)) (acc res : InitResult),
      initFrom bs ad now cfgs acc = some res →
      acc.trace.all (fun a => !a.isSubscribe && !a.isListen) = true →
      res.trace.all (fun a => !a.isSubscribe && !a.isListen) = true
  | [], acc, res, h, hacc => by
      unfold initFrom at h
      obtain rfl := Option.some.inj h
      exact hacc
  | (name, cfg) :: rest, acc, res, h, hacc => by
      unfold initFrom at h
      split at h
      · exact absurd h (by simp)
      · next acc2 heq =>
          exact initFrom_trace bs ad now rest acc2 res h
            (setupOutput_trace bs ad name cfg now acc acc2 heq hacc)

/-- Claim C8: in every run, the `__init__` trace — which contains all cache
copies and all frame generations — precedes the `start()` trace: `__init__`
never subscribes or listens, `start()` never generates or copies, and the run
is exactly the `__init__` trace followed by the `start()` trace (and nothing
at all — no subscription in particular — when `__init__` dies). So no
event-stream subscription ever occurs before every configured output has its
cache ensured and its frames generated. -/
theorem no_subscribe_before_ready (cfgs : List (String × OutputConfig))
    (bs ad now : Nat) (fs : FS) :
    blurManagerRun cfgs bs ad now fs =
      (blurManagerInit cfgs bs ad now fs).map (fun r => r.trace ++ blurManagerStart) ∧
    ((blurManagerInit cfgs bs ad now fs).map
        (fun r => r.trace.all (fun a => !a.isSubscribe && !a.isListen))).getD true = true ∧
    blurManagerStart.all (fun a => !a.isGenerateFrame && !a.isCopyFile) = true := by
  refine ⟨rfl, ?_, rfl⟩
  cases hinit : blurManagerInit cfgs bs ad now fs with
  | none => rfl
  | some res =>
      unfold blurManagerInit at hinit
      simp only [Option.map_some', Option.getD_some]
      exact initFrom_trace bs ad now cfgs ⟨[], fs, []⟩ res hinit rfl

/-! ## Claim C10 -/

/-- The `self.outputs` mapping determined by the configuration alone (newest
binding first), exactly as built by the loop of lines 45–77 — note it takes
no file system argument: identities, cached paths and frame paths are
computed from the configured path strings only. -/
def buildOutputs (bs ad : Nat) :
    List (String × OutputConfig) → List (String × Output) → List (String × Output)
  | [], acc => acc
  | (name, cfg) :: rest, acc =>
    match cfg.image with
    | none => buildOutputs bs ad rest acc
    | some image =>
      if image = "" then buildOutputs bs ad rest acc
      else buildOutputs bs ad rest
        ((name, mkOutputWithHash bs ad name image (imageHash image) cfg) :: acc)

/-- The outputs built by the `__init__` loop depend only on the
configuration, never on the file system. -/
theorem initFrom_outputs (bs ad now : Nat) :
    ∀ (cfgs : List (String × OutputConfig)) (acc res : InitResult),
      initFrom bs ad now cfgs acc = some res →
      res.outputs = buildOutputs bs ad cfgs acc.outputs
  | [], acc, res, h => by
      unfold initFrom at h
      obtain rfl := Option.some.inj h
      rfl
  | (name, cfg) :: rest, acc, res, h => by
      unfold initFrom at h
      split at h
      · exact absurd h (by simp)
      · next acc2 heq =>
          have h2 := initFrom_outputs bs ad now rest acc2 res h
          unfold setupOutput at heq
          split at heq
          · next himg =>
              obtain rfl := Option.some.inj heq
              simp only [buildOutputs, himg]
              exact h2
          · next image himg =>
              split at heq
              · next hempty =>
                  obtain rfl := Option.some.inj heq
                  simp only [buildOutputs, himg, if_pos hempty]
                  exact h2
              · next hempty =>
                  unfold setupOutputWithHash at heq
                  split at heq
                  · exact absurd heq (by simp)
                  · obtain rfl := Option.some.inj heq
                    simp only [buildOutputs, himg, if_neg hempty]
                    exact h2
                  · obtain rfl := Option.some.inj heq
                    simp only [buildOutputs, himg, if_neg hempty]
                    exact h2

/-- Claim C10 (amended): the wallpaper identity of line 52 is the MD5 of the
path string alone, never of the file bytes: the outputs built by `__init__` —
and with them every identity, cached-image path and frame-path list — are a
function of the configuration only, so replacing file content (any change of
the file system) leaves them unchanged; and equal path strings give equal
identities, cached paths and frame lists. (The converse — equal identities
force equal path strings — is false: see the counterexample.) -/
theorem outputs_path_determined (cfgs : List (String × OutputConfig))
    (bs ad now : Nat) (fs : FS) (res : InitResult)
    (hinit : blurManagerInit cfgs bs ad now fs = some res) :
    res.outputs = buildOutputs bs ad cfgs [] ∧
    ∀ p q : String, p = q →
      imageHash p = imageHash q ∧
      cachedImagePath p (imageHash p) = cachedImagePath q (imageHash q) ∧
      ∀ levels : List Nat,
        levels.map (framePath (imageHash p)) = levels.map (framePath (imageHash q)) := by
  constructor
  · unfold blurManagerInit at hinit
    exact initFrom_outputs bs ad now cfgs ⟨[], fs, []⟩ res hinit
  · rintro p q rfl
    exact ⟨rfl, rfl, fun _ => rfl⟩

/-- Witness for Claim C10's theorem: a one-entry configuration with no
wallpaper set, run on the empty file system. -/
theorem outputs_path_determined_witness :
    (⟨[], [], [Action.logInfo "Output X has no wallpaper set"]⟩ : InitResult).outputs =
      buildOutputs 1 1 [("X", ⟨none, "f", "a", "s"⟩)] [] ∧
    imageHash "/x" = imageHash "/x" :=
  ⟨(outputs_path_determined [("X", ⟨none, "f", "a", "s"⟩)] 1 1 0 []
      ⟨[], [], [Action.logInfo "Output X has no wallpaper set"]⟩ rfl).1,
   ((outputs_path_determined [("X", ⟨none, "f", "a", "s"⟩)] 1 1 0 []
      ⟨[], [], [Action.logInfo "Output X has no wallpaper set"]⟩ rfl).2 "/x" "/x" rfl).1⟩

/-- The packed MD5 digest is a 128-bit number. -/
theorem md5Nat_lt (msg : List Nat) : MD5.md5Nat msg < 2 ^ 128 := by
  have hp : (2 : Nat) ^ 128 = 340282366920938463463374607431768211456 := by norm_num
  unfold MD5.md5Nat MD5.M32
  rw [hp]
  omega

/-- Counterexample to Claim C10: identities are *not* equal only when the
path strings are equal — `imageHash` maps infinitely many path strings into
the 2¹²⁸ possible MD5 digests, so by the pigeonhole principle two distinct
configured wallpaper paths with equal identities (hence equal cached-image
paths and equal frame-path lists) exist. -/
theorem imageHash_not_injective :
    ¬ ∀ p q : String, imageHash p = imageHash q → p = q := by
  intro hinj
  obtain ⟨n, m, hne, heq⟩ :=
    Finite.exists_ne_map_eq_of_infinite
      (fun n : Nat =>
        (⟨MD5.md5Nat (MD5.strBytes (String.mk (List.replicate n 'a'))),
          md5Nat_lt _⟩ : Fin (2 ^ 128)))
  have hv : MD5.md5Nat (MD5.strBytes (String.mk (List.replicate n 'a'))) =
      MD5.md5Nat (MD5.strBytes (String.mk (List.replicate m 'a'))) :=
    congrArg Fin.val heq
  have hih : imageHash (String.mk (List.replicate n 'a')) =
      imageHash (String.mk (List.replicate m 'a')) := by
    unfold imageHash
    exact congrArg MD5.md5Hex hv
  have hstr := hinj _ _ hih
  have hlen := congrArg (fun str : String => str.data.length) hstr
  simp only [List.length_replicate] at hlen
  exact hne hlen

end Swayblur

